import Mathlib

/-!
Verification of the multi-stage registration pipeline orchestration of the
SlicerANTs module suite (files `ANTsRegistration.py`, `ITKANTsCommon.py`).

The development shallowly embeds:
one, the widget-level pipeline state kept in the parameter node (a JSON stage
list under the key `StagesJson` plus the integer parameter `CurrentStage`) and
the handlers that mutate it
(`onRemoveStageButtonClicked`, `setCurrentStagePropertiesToStagesList`,
`updateStagesFromFixedMovingNodes`, `onPresetSelected`);
two, the registration driver `ANTsRegistrationLogic.process`, whose per-stage
loop configures the external `itk.ANTSRegistration` engine object and invokes
its `Update` method once per stage, threading the forward transform from stage
to stage (the engine itself is external and is modelled as an oracle whose
k-th `Update` produces the opaque forward transform `engineForward k`);
three, the transform codec (`itkTransformFromTransformNode`,
`transformNodeFromItkTransform`) with its temporary interchange file effects,
modelled over an explicit list of existing file names, and its dispatch on the
runtime kind of the ITK transform.

Numeric strings kept verbatim by the Python code (CSV settings fields) are
modelled as `String`; quantities the code converts to `int`/`float` before
handing them to the engine are modelled as `Nat`/`Rat` where the claims need
them, and kept as the raw strings otherwise.
-/

namespace SlicerANTs

/-- Transform parameters of one stage: the transform type name selected in the
stages table and the CSV settings string whose first entry is the gradient
step (`stage["transformParameters"]`). -/
structure TransformParameters where
  transform : String
  settings : String
deriving DecidableEq

/-- One metric entry of a stage (`stage["metrics"][i]`): metric type name,
fixed and moving image references (node ID strings at the widget level), and
the CSV settings string. -/
structure Metric where
  type : String
  fixed : String
  moving : String
  settings : String
deriving DecidableEq

/-- Mask references of one stage (`stage["masks"]`), node ID strings at the
widget level; the empty string models the absent selection. -/
structure Masks where
  fixed : String
  moving : String
deriving DecidableEq

/-- One multi-resolution step of a stage (`stage["levels"]["steps"][i]`):
convergence iteration count, shrink factor and smoothing sigma. -/
structure LevelStep where
  convergence : Nat
  shrinkFactors : Nat
  smoothingSigmas : Rat
deriving DecidableEq

/-- Levels configuration of one stage (`stage["levels"]`). -/
structure Levels where
  steps : List LevelStep
  smoothingSigmasUnit : String
  convergenceThreshold : Rat
  convergenceWindowSize : Nat
deriving DecidableEq

/-- One stage of the pipeline, as stored in the `StagesJson` parameter. -/
structure Stage where
  transformParameters : TransformParameters
  metrics : List Metric
  levels : Levels
  masks : Masks
deriving DecidableEq

instance : Inhabited Metric := ⟨⟨"", "", "", ""⟩⟩

instance : Inhabited Levels := ⟨⟨[], "vox", 0, 0⟩⟩

instance : Inhabited Stage := ⟨⟨⟨"", ""⟩, [], default, ⟨"", ""⟩⟩⟩

/-- Pipeline state persisted in the parameter node: the parsed `StagesJson`
stage list and the `CurrentStage` parameter. `CurrentStage` is stored as the
decimal string of a non-negative row index and is modelled as `Nat`. -/
structure ParamNode where
  stagesList : List Stage
  currentStage : Nat
deriving DecidableEq

/-- Errors a widget handler could signal to the user. The source handlers of
this module signal none (no exception is raised and no dialog is shown in
`onRemoveStageButtonClicked`); the channel exists so that specification
claims about signalled validation errors can be stated and settled. -/
inductive UserError where
  | validationError
deriving DecidableEq

/-- Replace the element at the given index, leaving the list unchanged when
the index is out of range. Helper mirroring the in-place item assignment
`stagesList[stageNumber] = ...` used by the widget handlers. -/
def modifyIdx (f : α → α) : Nat → List α → List α
  | _, [] => []
  | 0, a :: as => f a :: as
  | i + 1, a :: as => a :: modifyIdx f i as

/-- Handler `ANTsRegistrationWidget.onRemoveStageButtonClicked`: parses the
stage list, returns unchanged (signalling nothing) when a single stage is
left, otherwise pops the stage at `CurrentStage` and stores
`max(currentStage - 1, 0)` as the new `CurrentStage`. -/
def onRemoveStageButtonClicked (p : ParamNode) : ParamNode × Option UserError :=
  if p.stagesList.length = 1 then
    (p, none)
  else
    ({ stagesList := p.stagesList.eraseIdx p.currentStage,
       currentStage := max (p.currentStage - 1) 0 }, none)

/-- Write both image references into the first metric of a metric list,
mirroring `stage["metrics"][0]["fixed"] = ...` and
`stage["metrics"][0]["moving"] = ...` (the Python code assumes the list is
non-empty; on the empty list this model leaves it empty). -/
def setFirstFixedMoving (fixedID movingID : String) : List Metric → List Metric
  | [] => []
  | m :: rest => { m with fixed := fixedID, moving := movingID } :: rest

/-- Handler `ANTsRegistrationWidget.updateStagesFromFixedMovingNodes`: writes
the currently selected fixed and moving image node IDs into `metrics[0]` of
every stage of the parsed stage list, unconditionally — the handler consults
no link flag. The host-level early return (missing parameter node or
re-entrant GUI refresh) leaves the store untouched and is not modelled. -/
def updateStagesFromFixedMovingNodes (stagesList : List Stage)
    (fixedID movingID : String) : List Stage :=
  stagesList.map fun stage =>
    { stage with metrics := setFirstFixedMoving fixedID movingID stage.metrics }

/-- Shared per-field propagation step of
`setCurrentStagePropertiesToStagesList`: the source computes a
`stagesIterator` that is `range(len(stagesList))` when the field's link
button is checked and `[currentStage]` otherwise, and writes the GUI value
at every iterated index. -/
def applyToStages (link : Bool) (currentStage : Nat) (f : Stage → Stage)
    (stagesList : List Stage) : List Stage :=
  if link then stagesList.map f else modifyIdx f currentStage stagesList

/-- Method `ANTsRegistrationWidget.setCurrentStagePropertiesToStagesList`:
writes the metrics-table value into every stage when the metrics link button
is checked, else only into the current stage; then likewise for the levels
value with the levels link button; then likewise for the mask selection with
the masking link button. -/
def setCurrentStagePropertiesToStagesList (stagesList : List Stage)
    (currentStage : Nat) (linkMetrics linkLevels linkMasks : Bool)
    (guiMetrics : List Metric) (guiLevels : Levels)
    (fixedMaskID movingMaskID : String) : List Stage :=
  applyToStages linkMasks currentStage
    (fun stage => { stage with masks := ⟨fixedMaskID, movingMaskID⟩ })
    (applyToStages linkLevels currentStage
      (fun stage => { stage with levels := guiLevels })
      (applyToStages linkMetrics currentStage
        (fun stage => { stage with metrics := guiMetrics })
        stagesList))

/-- Handler `ANTsRegistrationWidget.onPresetSelected`: returns the state
unchanged for the placeholder entry, otherwise replaces the stage list with
the preset's stage list (a freshly parsed JSON document, hence a deep copy),
writing the currently selected fixed and moving node IDs into `metrics[0]` of
every preset stage, and stores "0" as `CurrentStage`. -/
def onPresetSelected (p : ParamNode) (presetName : String)
    (presetStages : List Stage) (fixedID movingID : String) : ParamNode :=
  if presetName = "Select..." then
    p
  else
    { stagesList :=
        presetStages.map fun stage =>
          { stage with metrics := setFirstFixedMoving fixedID movingID stage.metrics },
      currentStage := 0 }

theorem length_modifyIdx (f : α → α) (i : Nat) (l : List α) :
    (modifyIdx f i l).length = l.length := by
  induction l generalizing i with
  | nil => cases i <;> rfl
  | cons a as ih =>
    cases i with
    | zero => rfl
    | succ j => simp [modifyIdx, ih]

theorem getElem?_modifyIdx_self (f : α → α) (i : Nat) (l : List α) :
    (modifyIdx f i l)[i]? = (l[i]?).map f := by
  induction l generalizing i with
  | nil => simp [modifyIdx]
  | cons a as ih =>
    cases i with
    | zero => simp [modifyIdx]
    | succ j => simpa [modifyIdx] using ih j

theorem getElem?_modifyIdx_ne (f : α → α) (i j : Nat) (l : List α)
    (h : j ≠ i) : (modifyIdx f i l)[j]? = l[j]? := by
  induction l generalizing i j with
  | nil => simp [modifyIdx]
  | cons a as ih =>
    cases i with
    | zero =>
      cases j with
      | zero => exact absurd rfl h
      | succ j' => simp [modifyIdx]
    | succ i' =>
      cases j with
      | zero => simp [modifyIdx]
      | succ j' =>
        have : j' ≠ i' := fun hji => h (by simp [hji])
        simpa [modifyIdx] using ih i' j' this

theorem length_applyToStages (link : Bool) (currentStage : Nat)
    (f : Stage → Stage) (stagesList : List Stage) :
    (applyToStages link currentStage f stagesList).length = stagesList.length := by
  cases link <;> simp [applyToStages, length_modifyIdx]

theorem getElem?_applyToStages (link : Bool) (currentStage : Nat)
    (f : Stage → Stage) (stagesList : List Stage) (i : Nat) :
    (applyToStages link currentStage f stagesList)[i]? =
      (stagesList[i]?).map
        (fun st => if link = true ∨ i = currentStage then f st else st) := by
  cases link with
  | true => simp [applyToStages, List.getElem?_map]
  | false =>
    by_cases hic : i = currentStage
    · subst hic
      simp [applyToStages, getElem?_modifyIdx_self]
    · rw [show applyToStages false currentStage f stagesList
            = modifyIdx f currentStage stagesList from rfl,
          getElem?_modifyIdx_ne f currentStage i stagesList hic]
      simp [hic]

theorem setProps_getElem? (stagesList : List Stage) (currentStage : Nat)
    (linkMetrics linkLevels linkMasks : Bool) (guiMetrics : List Metric)
    (guiLevels : Levels) (fixedMaskID movingMaskID : String) (i : Nat) :
    (setCurrentStagePropertiesToStagesList stagesList currentStage
        linkMetrics linkLevels linkMasks guiMetrics guiLevels
        fixedMaskID movingMaskID)[i]? =
      (stagesList[i]?).map
        (fun st =>
          { st with
            metrics :=
              if linkMetrics = true ∨ i = currentStage then guiMetrics
              else st.metrics,
            levels :=
              if linkLevels = true ∨ i = currentStage then guiLevels
              else st.levels,
            masks :=
              if linkMasks = true ∨ i = currentStage then
                ⟨fixedMaskID, movingMaskID⟩
              else st.masks }) := by
  rw [setCurrentStagePropertiesToStagesList, getElem?_applyToStages,
    getElem?_applyToStages, getElem?_applyToStages,
    Option.map_map, Option.map_map]
  cases h : stagesList[i]? with
  | none => rfl
  | some st =>
    simp only [Option.map_some', Function.comp_apply]
    refine congrArg some ?_
    split_ifs <;> rfl

theorem length_setProps (stagesList : List Stage) (currentStage : Nat)
    (linkMetrics linkLevels linkMasks : Bool) (guiMetrics : List Metric)
    (guiLevels : Levels) (fixedMaskID movingMaskID : String) :
    (setCurrentStagePropertiesToStagesList stagesList currentStage
        linkMetrics linkLevels linkMasks guiMetrics guiLevels
        fixedMaskID movingMaskID).length = stagesList.length := by
  rw [setCurrentStagePropertiesToStagesList]
  simp [length_applyToStages]

/-- Sample levels configuration used by concrete witnesses: one step, as in
the built-in minimal defaults (one level). -/
def sampleLevels : Levels :=
  { steps := [{ convergence := 100, shrinkFactors := 4, smoothingSigmas := 2 }],
    smoothingSigmasUnit := "vox",
    convergenceThreshold := 0,
    convergenceWindowSize := 10 }

/-- Sample stage used by concrete witnesses, parameterized by transform
type name. -/
def sampleStage (transformName : String) : Stage :=
  { transformParameters := { transform := transformName, settings := "0.2" },
    metrics := [{ type := "Mattes", fixed := "f1", moving := "m1", settings := "1,32" }],
    levels := sampleLevels,
    masks := { fixed := "", moving := "" } }

/-- Claim C2 counterexample: on a single-stage pipeline the remove-stage
handler leaves the state unchanged but signals no `ValidationError` at all —
the source handler returns silently (`if len(stagesList) == 1: return`)
without raising an exception or displaying an error, so the claim that the
error "is reported" is false. -/
theorem c2_counterexample :
    (onRemoveStageButtonClicked ⟨[sampleStage "Rigid"], 0⟩).2
        ≠ some UserError.validationError ∧
      (onRemoveStageButtonClicked ⟨[sampleStage "Rigid"], 0⟩).1
        = ⟨[sampleStage "Rigid"], 0⟩ := by
  exact ⟨by decide, rfl⟩

/-- Claim C2 as amended: for every pipeline whose stage list has exactly one
stage, the remove-stage handler is a silent no-op — the stage list, the
current-stage selector and all other state are unchanged, the stage count
never reaches zero, and no error of any kind is signalled. -/
theorem c2_single_stage_remove_silent_noop (p : ParamNode)
    (h : p.stagesList.length = 1) :
    onRemoveStageButtonClicked p = (p, none) := by
  rw [onRemoveStageButtonClicked, if_pos h]

/-- Witness for `c2_single_stage_remove_silent_noop` at a concrete
single-stage pipeline. -/
theorem c2_witness :
    (ParamNode.mk [sampleStage "Rigid"] 0).stagesList.length = 1 ∧
      onRemoveStageButtonClicked ⟨[sampleStage "Rigid"], 0⟩
        = (⟨[sampleStage "Rigid"], 0⟩, none) :=
  ⟨rfl, c2_single_stage_remove_silent_noop ⟨[sampleStage "Rigid"], 0⟩ rfl⟩

/-- Claim C3 counterexample: with 3 stages and current stage 1, the handler
removes the current stage and sets the selector to `max(1 - 1, 0) = 0`,
whereas the claim's clamp `min(currentIndex, len(stages) - 1)` yields 1 both
when `len(stages)` is read after removal (`min 1 (2 - 1) = 1`) and before
removal (`min 1 (3 - 1) = 1`). -/
theorem c3_counterexample :
    ((onRemoveStageButtonClicked
        ⟨[sampleStage "Rigid", sampleStage "Affine", sampleStage "SyN"], 1⟩).1).currentStage
        = 0 ∧
      ((onRemoveStageButtonClicked
        ⟨[sampleStage "Rigid", sampleStage "Affine", sampleStage "SyN"], 1⟩).1).stagesList.length
        = 2 ∧
      (0 : Nat) ≠ min 1 (2 - 1) ∧ (0 : Nat) ≠ min 1 (3 - 1) := by
  refine ⟨rfl, rfl, by decide, by decide⟩

/-- Claim C3 as amended: for every pipeline with at least two stages and the
current-stage selector a valid index, the handler removes exactly the stage
at the current index, preserves the relative order of the remaining stages,
and sets the selector to `max(currentIndex - 1, 0)`, which is never negative
and is always a valid index of the shortened list; no error is signalled. -/
theorem c3_remove_stage_pop_and_clamp (p : ParamNode)
    (h2 : 2 ≤ p.stagesList.length) (hc : p.currentStage < p.stagesList.length) :
    ((onRemoveStageButtonClicked p).1).stagesList.length
        = p.stagesList.length - 1 ∧
      (∀ i, i < p.currentStage →
        ((onRemoveStageButtonClicked p).1).stagesList[i]? = p.stagesList[i]?) ∧
      (∀ i, p.currentStage ≤ i →
        ((onRemoveStageButtonClicked p).1).stagesList[i]? = p.stagesList[i + 1]?) ∧
      ((onRemoveStageButtonClicked p).1).currentStage = p.currentStage - 1 ∧
      ((onRemoveStageButtonClicked p).1).currentStage
        < ((onRemoveStageButtonClicked p).1).stagesList.length ∧
      (onRemoveStageButtonClicked p).2 = none := by
  have hne : ¬ p.stagesList.length = 1 := by omega
  rw [onRemoveStageButtonClicked, if_neg hne]
  refine ⟨List.length_eraseIdx_of_lt hc, ?_, ?_, ?_, ?_, rfl⟩
  · intro i hi
    exact List.getElem?_eraseIdx_of_lt p.stagesList p.currentStage i hi
  · intro i hi
    exact List.getElem?_eraseIdx_of_ge p.stagesList p.currentStage i hi
  · show max (p.currentStage - 1) 0 = p.currentStage - 1
    omega
  · show max (p.currentStage - 1) 0 < (p.stagesList.eraseIdx p.currentStage).length
    rw [List.length_eraseIdx_of_lt hc]
    omega

/-- Witness for `c3_remove_stage_pop_and_clamp` at a concrete three-stage
pipeline with current stage 1. -/
theorem c3_witness :
    2 ≤ (ParamNode.mk [sampleStage "Rigid", sampleStage "Affine", sampleStage "SyN"] 1).stagesList.length ∧
      1 < (ParamNode.mk [sampleStage "Rigid", sampleStage "Affine", sampleStage "SyN"] 1).stagesList.length ∧
      (((onRemoveStageButtonClicked
          ⟨[sampleStage "Rigid", sampleStage "Affine", sampleStage "SyN"], 1⟩).1).stagesList.length
          = (ParamNode.mk [sampleStage "Rigid", sampleStage "Affine", sampleStage "SyN"] 1).stagesList.length - 1 ∧
        (∀ i, i < (ParamNode.mk [sampleStage "Rigid", sampleStage "Affine", sampleStage "SyN"] 1).currentStage →
          ((onRemoveStageButtonClicked
            ⟨[sampleStage "Rigid", sampleStage "Affine", sampleStage "SyN"], 1⟩).1).stagesList[i]?
            = (ParamNode.mk [sampleStage "Rigid", sampleStage "Affine", sampleStage "SyN"] 1).stagesList[i]?) ∧
        (∀ i, (ParamNode.mk [sampleStage "Rigid", sampleStage "Affine", sampleStage "SyN"] 1).currentStage ≤ i →
          ((onRemoveStageButtonClicked
            ⟨[sampleStage "Rigid", sampleStage "Affine", sampleStage "SyN"], 1⟩).1).stagesList[i]?
            = (ParamNode.mk [sampleStage "Rigid", sampleStage "Affine", sampleStage "SyN"] 1).stagesList[i + 1]?) ∧
        ((onRemoveStageButtonClicked
          ⟨[sampleStage "Rigid", sampleStage "Affine", sampleStage "SyN"], 1⟩).1).currentStage
          = (ParamNode.mk [sampleStage "Rigid", sampleStage "Affine", sampleStage "SyN"] 1).currentStage - 1 ∧
        ((onRemoveStageButtonClicked
          ⟨[sampleStage "Rigid", sampleStage "Affine", sampleStage "SyN"], 1⟩).1).currentStage
          < ((onRemoveStageButtonClicked
            ⟨[sampleStage "Rigid", sampleStage "Affine", sampleStage "SyN"], 1⟩).1).stagesList.length ∧
        (onRemoveStageButtonClicked
          ⟨[sampleStage "Rigid", sampleStage "Affine", sampleStage "SyN"], 1⟩).2 = none) :=
  ⟨by decide, by decide,
    c3_remove_stage_pop_and_clamp
      ⟨[sampleStage "Rigid", sampleStage "Affine", sampleStage "SyN"], 1⟩
      (by decide) (by decide)⟩

/-- Statement of claim C4, per linkable field: when the field's link flag is
set, every stage of the output carries the written value; when clear, the
current stage carries it and every other stage's field is unchanged. The
same rule is stated for metrics, levels and masks. -/
def c4Prop (stagesList : List Stage) (currentStage : Nat)
    (linkMetrics linkLevels linkMasks : Bool) (guiMetrics : List Metric)
    (guiLevels : Levels) (fixedMaskID movingMaskID : String) : Prop :=
  let out := setCurrentStagePropertiesToStagesList stagesList currentStage
    linkMetrics linkLevels linkMasks guiMetrics guiLevels fixedMaskID movingMaskID
  out.length = stagesList.length ∧
  (out[currentStage]?).isSome = true ∧
  (linkMetrics = true → ∀ (i : Nat) (st : Stage), out[i]? = some st → st.metrics = guiMetrics) ∧
  (linkMetrics = false →
    (∀ (st : Stage), out[currentStage]? = some st → st.metrics = guiMetrics) ∧
    (∀ (i : Nat), i ≠ currentStage →
      (out[i]?).map Stage.metrics = (stagesList[i]?).map Stage.metrics)) ∧
  (linkLevels = true → ∀ (i : Nat) (st : Stage), out[i]? = some st → st.levels = guiLevels) ∧
  (linkLevels = false →
    (∀ (st : Stage), out[currentStage]? = some st → st.levels = guiLevels) ∧
    (∀ (i : Nat), i ≠ currentStage →
      (out[i]?).map Stage.levels = (stagesList[i]?).map Stage.levels)) ∧
  (linkMasks = true →
    ∀ (i : Nat) (st : Stage), out[i]? = some st → st.masks = ⟨fixedMaskID, movingMaskID⟩) ∧
  (linkMasks = false →
    (∀ (st : Stage), out[currentStage]? = some st → st.masks = ⟨fixedMaskID, movingMaskID⟩) ∧
    (∀ (i : Nat), i ≠ currentStage →
      (out[i]?).map Stage.masks = (stagesList[i]?).map Stage.masks))

/-- Claim C4: the single propagation rule of
`setCurrentStagePropertiesToStagesList` — a set link flag fans the written
value out to every stage, a clear flag writes only the current stage and
leaves every other stage's field untouched, identically for the metrics,
levels and masks fields. -/
theorem c4_field_edit_propagation (stagesList : List Stage) (currentStage : Nat)
    (linkMetrics linkLevels linkMasks : Bool) (guiMetrics : List Metric)
    (guiLevels : Levels) (fixedMaskID movingMaskID : String)
    (hc : currentStage < stagesList.length) :
    c4Prop stagesList currentStage linkMetrics linkLevels linkMasks
      guiMetrics guiLevels fixedMaskID movingMaskID := by
  refine ⟨length_setProps .., ?_, ?_, ?_, ?_, ?_, ?_, ?_⟩
  · rw [setProps_getElem?, List.getElem?_eq_getElem hc]
    rfl
  · intro hlm i st hst
    rw [setProps_getElem?] at hst
    cases horig : stagesList[i]? with
    | none => rw [horig] at hst; exact absurd hst (by simp)
    | some st0 =>
      rw [horig] at hst
      simp only [Option.map_some'] at hst
      injection hst with h
      rw [← h]
      simp [hlm]
  · intro hlm
    constructor
    · intro st hst
      rw [setProps_getElem?] at hst
      cases horig : stagesList[currentStage]? with
      | none => rw [horig] at hst; exact absurd hst (by simp)
      | some st0 =>
        rw [horig] at hst
        simp only [Option.map_some'] at hst
        injection hst with h
        rw [← h]
        simp
    · intro i hi
      rw [setProps_getElem?, Option.map_map]
      cases horig : stagesList[i]? with
      | none => rfl
      | some st0 => simp [hlm, hi]
  · intro hll i st hst
    rw [setProps_getElem?] at hst
    cases horig : stagesList[i]? with
    | none => rw [horig] at hst; exact absurd hst (by simp)
    | some st0 =>
      rw [horig] at hst
      simp only [Option.map_some'] at hst
      injection hst with h
      rw [← h]
      simp [hll]
  · intro hll
    constructor
    · intro st hst
      rw [setProps_getElem?] at hst
      cases horig : stagesList[currentStage]? with
      | none => rw [horig] at hst; exact absurd hst (by simp)
      | some st0 =>
        rw [horig] at hst
        simp only [Option.map_some'] at hst
        injection hst with h
        rw [← h]
        simp
    · intro i hi
      rw [setProps_getElem?, Option.map_map]
      cases horig : stagesList[i]? with
      | none => rfl
      | some st0 => simp [hll, hi]
  · intro hlk i st hst
    rw [setProps_getElem?] at hst
    cases horig : stagesList[i]? with
    | none => rw [horig] at hst; exact absurd hst (by simp)
    | some st0 =>
      rw [horig] at hst
      simp only [Option.map_some'] at hst
      injection hst with h
      rw [← h]
      simp [hlk]
  · intro hlk
    constructor
    · intro st hst
      rw [setProps_getElem?] at hst
      cases horig : stagesList[currentStage]? with
      | none => rw [horig] at hst; exact absurd hst (by simp)
      | some st0 =>
        rw [horig] at hst
        simp only [Option.map_some'] at hst
        injection hst with h
        rw [← h]
        simp
    · intro i hi
      rw [setProps_getElem?, Option.map_map]
      cases horig : stagesList[i]? with
      | none => rfl
      | some st0 => simp [hlk, hi]

/-- Witness for `c4_field_edit_propagation` at a concrete two-stage pipeline
with the metrics and masks flags set and the levels flag clear. -/
theorem c4_witness :
    0 < [sampleStage "Rigid", sampleStage "Affine"].length ∧
      c4Prop [sampleStage "Rigid", sampleStage "Affine"] 0 true false true
        [{ type := "CC", fixed := "fx", moving := "mv", settings := "4" }]
        sampleLevels "maskF" "maskM" :=
  ⟨by decide,
    c4_field_edit_propagation [sampleStage "Rigid", sampleStage "Affine"] 0
      true false true
      [{ type := "CC", fixed := "fx", moving := "mv", settings := "4" }]
      sampleLevels "maskF" "maskM" (by decide)⟩

/-- Statement of claim C5: after `updateStagesFromFixedMovingNodes`, every
stage carries the written fixed and moving references in `metrics[0]` and is
otherwise unchanged. -/
def c5Prop (stagesList : List Stage) (fixedID movingID : String) : Prop :=
  let out := updateStagesFromFixedMovingNodes stagesList fixedID movingID
  out.length = stagesList.length ∧
  (∀ (i : Nat) (st0 : Stage), stagesList[i]? = some st0 →
    out[i]? = some { st0 with
      metrics := setFirstFixedMoving fixedID movingID st0.metrics }) ∧
  (∀ (i : Nat) (st0 : Stage), stagesList[i]? = some st0 → st0.metrics ≠ [] →
    ∃ (st : Stage) (m0 : Metric) (rest : List Metric), out[i]? = some st ∧ st.metrics = m0 :: rest ∧
      m0.fixed = fixedID ∧ m0.moving = movingID)

/-- Claim C5: `updateStagesFromFixedMovingNodes` writes the selected fixed
and moving node IDs into `metrics[0]` of every stage, unconditionally — the
handler consults no link flag — so afterwards all stages share the single
given fixed/moving image pair. -/
theorem c5_set_fixed_moving_all_stages (stagesList : List Stage)
    (fixedID movingID : String) : c5Prop stagesList fixedID movingID := by
  refine ⟨by simp [updateStagesFromFixedMovingNodes], ?_, ?_⟩
  · intro i st0 h
    simp [updateStagesFromFixedMovingNodes, List.getElem?_map, h]
  · intro i st0 h hne
    obtain ⟨m0, rest, hm⟩ : ∃ m0 rest, st0.metrics = m0 :: rest := by
      cases hmm : st0.metrics with
      | nil => exact absurd hmm hne
      | cons a l => exact ⟨a, l, rfl⟩
    refine ⟨{ st0 with metrics := setFirstFixedMoving fixedID movingID st0.metrics },
      { m0 with fixed := fixedID, moving := movingID }, rest, ?_, ?_, rfl, rfl⟩
    · simp [updateStagesFromFixedMovingNodes, List.getElem?_map, h]
    · show setFirstFixedMoving fixedID movingID st0.metrics = _
      rw [hm]
      rfl

/-- Witness for `c5_set_fixed_moving_all_stages` at a concrete two-stage
pipeline. -/
theorem c5_witness :
    c5Prop [sampleStage "Rigid", sampleStage "SyN"] "fixedA" "movingA" :=
  c5_set_fixed_moving_all_stages [sampleStage "Rigid", sampleStage "SyN"]
    "fixedA" "movingA"

/-- Statement of claim C7: after a preset is selected, the stage list is the
preset's stage list with the selected fixed/moving node IDs written into
`metrics[0]` of every stage, and the current stage is reset to 0. -/
def c7Prop (p : ParamNode) (presetName : String) (presetStages : List Stage)
    (fixedID movingID : String) : Prop :=
  let out := onPresetSelected p presetName presetStages fixedID movingID
  out.currentStage = 0 ∧
  out.stagesList.length = presetStages.length ∧
  (∀ (i : Nat) (st0 : Stage), presetStages[i]? = some st0 →
    out.stagesList[i]? = some { st0 with
      metrics := setFirstFixedMoving fixedID movingID st0.metrics }) ∧
  (∀ (i : Nat) (st0 : Stage), presetStages[i]? = some st0 → st0.metrics ≠ [] →
    ∃ (st : Stage) (m0 : Metric) (rest : List Metric), out.stagesList[i]? = some st ∧ st.metrics = m0 :: rest ∧
      m0.fixed = fixedID ∧ m0.moving = movingID)

/-- Claim C7: `onPresetSelected` (for a real preset name, not the
placeholder) replaces the stage list wholesale with the preset's stages —
values freshly parsed from the preset JSON, hence a deep copy — writes the
currently selected fixed and moving image IDs into `metrics[0]` of every new
stage, and resets the current stage index to 0. -/
theorem c7_load_preset (p : ParamNode) (presetName : String)
    (presetStages : List Stage) (fixedID movingID : String)
    (h : presetName ≠ "Select...") :
    c7Prop p presetName presetStages fixedID movingID := by
  have hsel : onPresetSelected p presetName presetStages fixedID movingID =
      { stagesList := presetStages.map fun stage =>
          { stage with
            metrics := setFirstFixedMoving fixedID movingID stage.metrics },
        currentStage := 0 } := by
    rw [onPresetSelected, if_neg h]
  refine ⟨by rw [hsel], by rw [hsel]; simp, ?_, ?_⟩
  · intro i st0 hst
    rw [hsel]
    simp [List.getElem?_map, hst]
  · intro i st0 hst hne
    obtain ⟨m0, rest, hm⟩ : ∃ m0 rest, st0.metrics = m0 :: rest := by
      cases hmm : st0.metrics with
      | nil => exact absurd hmm hne
      | cons a l => exact ⟨a, l, rfl⟩
    refine ⟨{ st0 with metrics := setFirstFixedMoving fixedID movingID st0.metrics },
      { m0 with fixed := fixedID, moving := movingID }, rest, ?_, ?_, rfl, rfl⟩
    · rw [hsel]
      simp [List.getElem?_map, hst]
    · show setFirstFixedMoving fixedID movingID st0.metrics = _
      rw [hm]
      rfl

/-- Witness for `c7_load_preset` at a concrete three-stage preset. -/
theorem c7_witness :
    "QuickSyN" ≠ "Select..." ∧
      c7Prop ⟨[sampleStage "Rigid"], 0⟩ "QuickSyN"
        [sampleStage "Rigid", sampleStage "Affine", sampleStage "SyN"]
        "fixedB" "movingB" :=
  ⟨by decide,
    c7_load_preset ⟨[sampleStage "Rigid"], 0⟩ "QuickSyN"
      [sampleStage "Rigid", sampleStage "Affine", sampleStage "SyN"]
      "fixedB" "movingB" (by decide)⟩

/-- An image or mask resolved by `createProcessParameters` (node references
replaced by loaded volumes). Only the dimensionality (`ndim` of the ITK
image obtained by `slicer.util.itkImageFromVolume`) and an identifying name
are modelled. -/
structure RImage where
  ndim : Nat
  name : String
deriving DecidableEq

instance : Inhabited RImage := ⟨⟨0, ""⟩⟩

/-- A metric of a resolved stage: as `Metric`, with the image references
replaced by resolved images. -/
structure RMetric where
  type : String
  fixed : RImage
  moving : RImage
  settings : String
deriving DecidableEq

instance : Inhabited RMetric := ⟨⟨"", default, default, ""⟩⟩

/-- Masks of a resolved stage. `none` models both Python sentinels for an
absent mask (`None` and the empty string): the driver applies a mask exactly
when the value is neither `None` nor `""`. -/
structure RMasks where
  fixed : Option RImage
  moving : Option RImage
deriving DecidableEq

/-- One resolved stage handed to `ANTsRegistrationLogic.process`. -/
structure RStage where
  transformParameters : TransformParameters
  metrics : List RMetric
  levels : Levels
  masks : RMasks
deriving DecidableEq

instance : Inhabited RStage := ⟨⟨⟨"", ""⟩, [], default, ⟨none, none⟩⟩⟩

/-- Opaque ITK transforms seen by the driver: the identity `AffineTransform`
it constructs before the loop, and the forward transform returned by the
engine's k-th `Update` call (the engine is external; its outputs are opaque
oracle values distinguished by call number). -/
inductive ITKTransform where
  | identityAffine
  | engineForward (k : Nat)
deriving DecidableEq

/-- Initial transform settings of `process`
(`parameters["initialTransformSettings"]`). -/
structure InitialTransformSettings where
  initialTransformNode : Option String := none
  initializationFeature : Option Int := none
deriving DecidableEq

/-- General settings of `process` (`parameters["generalSettings"]`). -/
structure GeneralSettings where
  dimensionality : Nat
  histogramMatching : Nat
  winsorizeImageIntensities : List Rat
  computationPrecision : String
deriving DecidableEq

/-- Initial transform construction of `process`: an identity
`AffineTransform` is constructed; both the node-based branch and the
feature-based branch of the source only print that they are not yet
implemented and leave the identity in place, so the constructed initial
transform is the identity for every settings value. -/
def initialTransformFor (_its : InitialTransformSettings) : ITKTransform :=
  ITKTransform.identityAffine

/-- Failures of the driver loop: the Python `assert` statements inside the
per-stage loop, which raise before the stage's engine `Update` call. -/
inductive ProcessError where
  | assertionError (message : String)
deriving DecidableEq

/-- Transform type handed to `ants_reg.SetTypeOfTransform`: the stage type
"SyN" is rewritten to "SyNOnly", every other stage type is forwarded
verbatim. -/
def engineTransformType (transform : String) : String :=
  if transform = "SyN" then "SyNOnly" else transform

/-- Transform types routed through `SetAffineMetric`/`SetAffineIterations`;
every other (already rewritten) type is routed through
`SetSynMetric`/`SetSynIterations`. -/
def affineTransformTypes : List String :=
  ["Rigid", "Affine", "CompositeAffine", "Similarity", "Translation"]

/-- One engine invocation: the full configuration applied to the
`itk.ANTSRegistration` filter before a stage's `Update` call. Values parsed
by Python from the CSV settings strings (`int`/`float` conversions) are kept
as the raw substrings. -/
structure EngineCall where
  stageIndex : Nat
  fixedImage : RImage
  movingImage : RImage
  initialTransform : ITKTransform
  typeOfTransform : String
  gradientStep : String
  numberOfBins : Option String
  radius : Option String
  samplingRate : Option String
  useGradientFilter : Option String
  shrinkFactors : List Nat
  smoothingSigmas : List Rat
  smoothingInPhysicalUnits : Bool
  affineMetric : Option String
  affineIterations : Option (List Nat)
  synMetric : Option String
  synIterations : Option (List Nat)
  fixedMask : Option RImage
  movingMask : Option RImage
deriving DecidableEq

/-- Configuration applied to the engine for one stage, mirroring the body of
the per-stage loop of `process` between the asserts and `Update`. -/
def mkEngineCall (stageIndex : Nat) (stage : RStage)
    (fixedImage movingImage : RImage) (initialTransform : ITKTransform) :
    EngineCall :=
  let transformType := engineTransformType stage.transformParameters.transform
  let transformSettings := stage.transformParameters.settings.splitOn ","
  let metric := stage.metrics.headD default
  let metricSettings := metric.settings.splitOn ","
  let iterations := stage.levels.steps.map LevelStep.convergence
  let isAffine : Bool := affineTransformTypes.contains transformType
  { stageIndex := stageIndex
    fixedImage := fixedImage
    movingImage := movingImage
    initialTransform := initialTransform
    typeOfTransform := transformType
    gradientStep := transformSettings.headD ""
    numberOfBins :=
      if metric.type = "MI" ∨ metric.type = "Mattes" then
        some (metricSettings.getD 1 "")
      else none
    radius :=
      if metric.type = "MI" ∨ metric.type = "Mattes" then none
      else some (metricSettings.getD 1 "")
    samplingRate :=
      if 3 < metricSettings.length then some (metricSettings.getD 3 "")
      else none
    useGradientFilter :=
      if 4 < metricSettings.length then some (metricSettings.getD 4 "")
      else none
    shrinkFactors := stage.levels.steps.map LevelStep.shrinkFactors
    smoothingSigmas := stage.levels.steps.map LevelStep.smoothingSigmas
    smoothingInPhysicalUnits := stage.levels.smoothingSigmasUnit == "mm"
    affineMetric := cond isAffine (some metric.type) none
    affineIterations := cond isAffine (some iterations) none
    synMetric := cond isAffine none (some metric.type)
    synIterations := cond isAffine none (some iterations)
    fixedMask := stage.masks.fixed
    movingMask := stage.masks.moving }

/-- Per-stage loop of `ANTsRegistrationLogic.process`: for each stage, the
asserts run first (fixed/moving `ndim` equality, `ndim` against the declared
dimensionality, single metric), then the engine is configured and `Update`
is invoked, and the returned forward transform becomes the initial transform
of the next stage. Returns the engine invocations made and either the final
forward transform or the first assertion failure. -/
def runStages (fixedImage movingImage : RImage) (dimensionality : Nat) :
    List RStage → Nat → ITKTransform →
      List EngineCall × Except ProcessError ITKTransform
  | [], _, t => ([], Except.ok t)
  | stage :: rest, stageIndex, t =>
    if fixedImage.ndim = movingImage.ndim then
      if fixedImage.ndim = dimensionality then
        if stage.metrics.length = 1 then
          let call := mkEngineCall stageIndex stage fixedImage movingImage t
          let next := runStages fixedImage movingImage dimensionality rest
            (stageIndex + 1) (ITKTransform.engineForward stageIndex)
          (call :: next.1, next.2)
        else
          ([], Except.error (ProcessError.assertionError "len of stage metrics is 1"))
      else
        ([], Except.error
          (ProcessError.assertionError "fixedImage ndim equals dimensionality"))
    else
      ([], Except.error
        (ProcessError.assertionError "fixedImage ndim equals movingImage ndim"))

/-- Fixed image of the run: `stages[0]["metrics"][0]["fixed"]`. -/
def firstFixedImage (stages : List RStage) : RImage :=
  ((stages.headD default).metrics.headD default).fixed

/-- Moving image of the run: `stages[0]["metrics"][0]["moving"]`. -/
def firstMovingImage (stages : List RStage) : RImage :=
  ((stages.headD default).metrics.headD default).moving

/-- Driver `ANTsRegistrationLogic.process`, up to the end of its per-stage
loop: reads the run's fixed and moving images from the first stage's first
metric, constructs the initial transform, and sequences the stages through
the engine. The finalize phase (writing the forward/inverse transforms and
the warped volume into scene nodes through the codec) consumes the returned
forward transform and is covered by the codec model below. -/
def process (stages : List RStage)
    (initialTransformSettings : InitialTransformSettings)
    (generalSettings : GeneralSettings) :
    List EngineCall × Except ProcessError ITKTransform :=
  runStages (firstFixedImage stages) (firstMovingImage stages)
    generalSettings.dimensionality stages 0
    (initialTransformFor initialTransformSettings)

/-- Engine invocation list the loop produces when no assert fires: one call
per stage, threading the engine's forward transforms. -/
def expectedCalls (fixedImage movingImage : RImage) :
    List RStage → Nat → ITKTransform → List EngineCall
  | [], _, _ => []
  | stage :: rest, stageIndex, t =>
    mkEngineCall stageIndex stage fixedImage movingImage t ::
      expectedCalls fixedImage movingImage rest (stageIndex + 1)
        (ITKTransform.engineForward stageIndex)

/-- Forward transform left in the filter after the loop: the last `Update`
result, or the incoming transform for an empty stage list. -/
def finalForward (stageIndex : Nat) (t : ITKTransform) :
    List RStage → ITKTransform
  | [] => t
  | stages => ITKTransform.engineForward (stageIndex + stages.length - 1)

theorem finalForward_cons (stageIndex : Nat) (t : ITKTransform)
    (stage : RStage) (rest : List RStage) :
    finalForward stageIndex t (stage :: rest)
      = ITKTransform.engineForward (stageIndex + rest.length) := by
  rfl

theorem finalForward_shift (stageIndex : Nat) (rest : List RStage) :
    finalForward (stageIndex + 1) (ITKTransform.engineForward stageIndex) rest
      = ITKTransform.engineForward (stageIndex + rest.length) := by
  cases rest with
  | nil => simp [finalForward]
  | cons s l =>
    rw [finalForward_cons, List.length_cons]
    congr 1
    omega

theorem runStages_eq_expected (fixedImage movingImage : RImage)
    (dimensionality : Nat) (stages : List RStage) (stageIndex : Nat)
    (t : ITKTransform)
    (h1 : fixedImage.ndim = movingImage.ndim)
    (h2 : fixedImage.ndim = dimensionality)
    (hm : ∀ s ∈ stages, s.metrics.length = 1) :
    runStages fixedImage movingImage dimensionality stages stageIndex t
      = (expectedCalls fixedImage movingImage stages stageIndex t,
         Except.ok (finalForward stageIndex t stages)) := by
  induction stages generalizing stageIndex t with
  | nil => simp [runStages, expectedCalls, finalForward]
  | cons stage rest ih =>
    have hs : stage.metrics.length = 1 := hm stage (by simp)
    have hrest : ∀ s ∈ rest, s.metrics.length = 1 := by
      intro s hsm
      exact hm s (by simp [hsm])
    simp only [runStages]
    rw [if_pos h1, if_pos h2, if_pos hs]
    rw [ih (stageIndex + 1) (ITKTransform.engineForward stageIndex) hrest]
    simp only [expectedCalls]
    rw [finalForward_shift, finalForward_cons]

theorem length_expectedCalls (fixedImage movingImage : RImage)
    (stages : List RStage) (stageIndex : Nat) (t : ITKTransform) :
    (expectedCalls fixedImage movingImage stages stageIndex t).length
      = stages.length := by
  induction stages generalizing stageIndex t with
  | nil => rfl
  | cons stage rest ih => simp [expectedCalls, ih]

theorem getElem?_expectedCalls (fixedImage movingImage : RImage)
    (stages : List RStage) (stageIndex : Nat) (t : ITKTransform) (i : Nat) :
    (expectedCalls fixedImage movingImage stages stageIndex t)[i]?
      = (stages[i]?).map (fun s =>
          mkEngineCall (stageIndex + i) s fixedImage movingImage
            (if i = 0 then t
             else ITKTransform.engineForward (stageIndex + i - 1))) := by
  induction stages generalizing stageIndex t i with
  | nil => simp [expectedCalls]
  | cons stage rest ih =>
    cases i with
    | zero => simp [expectedCalls]
    | succ j =>
      rw [show (expectedCalls fixedImage movingImage (stage :: rest) stageIndex t)
          = mkEngineCall stageIndex stage fixedImage movingImage t ::
            expectedCalls fixedImage movingImage rest (stageIndex + 1)
              (ITKTransform.engineForward stageIndex) from rfl]
      simp only [List.getElem?_cons_succ]
      rw [ih (stageIndex + 1) (ITKTransform.engineForward stageIndex) j]
      cases h : rest[j]? with
      | none => rfl
      | some s =>
        simp only [Option.map_some']
        refine congrArg some ?_
        cases j with
        | zero =>
          simp only [if_pos rfl]
          have : stageIndex + 1 = stageIndex + 0 + 1 := by omega
          rw [show stageIndex + 1 + 0 = stageIndex + (0 + 1) from by omega]
          rw [show stageIndex + (0 + 1) - 1 = stageIndex from by omega]
          simp
        | succ j' =>
          have h1 : stageIndex + 1 + (j' + 1) = stageIndex + (j' + 1 + 1) := by
            omega
          rw [h1]
          simp only [if_neg (Nat.succ_ne_zero j'), if_neg (Nat.succ_ne_zero (j' + 1))]

theorem mkEngineCall_stageIndex (stageIndex : Nat) (stage : RStage)
    (fixedImage movingImage : RImage) (t : ITKTransform) :
    (mkEngineCall stageIndex stage fixedImage movingImage t).stageIndex
      = stageIndex := rfl

theorem mkEngineCall_initialTransform (stageIndex : Nat) (stage : RStage)
    (fixedImage movingImage : RImage) (t : ITKTransform) :
    (mkEngineCall stageIndex stage fixedImage movingImage t).initialTransform
      = t := rfl

theorem mkEngineCall_typeOfTransform (stageIndex : Nat) (stage : RStage)
    (fixedImage movingImage : RImage) (t : ITKTransform) :
    (mkEngineCall stageIndex stage fixedImage movingImage t).typeOfTransform
      = engineTransformType stage.transformParameters.transform := rfl

/-- Three-dimensional fixed volume used by concrete driver witnesses. -/
def fixedVolume3 : RImage := ⟨3, "fixedVolume"⟩

/-- Three-dimensional moving volume used by concrete driver witnesses. -/
def movingVolume3 : RImage := ⟨3, "movingVolume"⟩

/-- Concrete Rigid stage: gradient step 0.2, Mattes metric, one level. -/
def rigidStage3 : RStage :=
  { transformParameters := { transform := "Rigid", settings := "0.2" },
    metrics := [{ type := "Mattes", fixed := fixedVolume3,
                  moving := movingVolume3, settings := "1,32,Regular,0.25" }],
    levels := { steps := [{ convergence := 100, shrinkFactors := 4, smoothingSigmas := 2 }],
                smoothingSigmasUnit := "vox", convergenceThreshold := 0,
                convergenceWindowSize := 10 },
    masks := ⟨none, none⟩ }

/-- Concrete SyN stage: gradient step 0.1, CC metric, three levels. -/
def synStage3 : RStage :=
  { transformParameters := { transform := "SyN", settings := "0.1" },
    metrics := [{ type := "CC", fixed := fixedVolume3,
                  moving := movingVolume3, settings := "1,4" }],
    levels := { steps := [{ convergence := 100, shrinkFactors := 4, smoothingSigmas := 2 },
                          { convergence := 70, shrinkFactors := 2, smoothingSigmas := 1 },
                          { convergence := 50, shrinkFactors := 1, smoothingSigmas := 0 }],
                smoothingSigmasUnit := "vox", convergenceThreshold := 0,
                convergenceWindowSize := 10 },
    masks := ⟨none, none⟩ }

/-- General settings used by concrete driver witnesses. -/
def generalSettings3 : GeneralSettings :=
  { dimensionality := 3, histogramMatching := 0,
    winsorizeImageIntensities := [0, 100], computationPrecision := "float" }

/-- Statement of claim C1 for a run: one engine `Update` per stage, in
pipeline order; the first invocation starts from the constructed initial
transform; every later invocation starts from the forward transform the
engine produced for the previous stage (never from identity); the run
completes. -/
def c1Prop (stages : List RStage) (its : InitialTransformSettings)
    (gs : GeneralSettings) : Prop :=
  let out := process stages its gs
  out.1.length = stages.length ∧
  (∀ (i : Nat) (c : EngineCall), out.1[i]? = some c → c.stageIndex = i) ∧
  (∀ (c : EngineCall), out.1[0]? = some c →
    c.initialTransform = initialTransformFor its) ∧
  (∀ (i : Nat) (c : EngineCall), out.1[i + 1]? = some c →
    c.initialTransform = ITKTransform.engineForward i ∧
    c.initialTransform ≠ ITKTransform.identityAffine) ∧
  (∃ final, out.2 = Except.ok final)

/-- Claim C1: for every pipeline whose images match the declared
dimensionality and whose stages each carry one metric (the driver's own
assert preconditions), the loop invokes the engine exactly once per stage in
order, stage 0 starts from the constructed initial transform, and stage
`i + 1` starts from the forward transform produced by the engine's i-th
invocation — never from identity. -/
theorem c1_engine_invocations_and_chaining (stages : List RStage)
    (its : InitialTransformSettings) (gs : GeneralSettings)
    (h1 : (firstFixedImage stages).ndim = (firstMovingImage stages).ndim)
    (h2 : (firstFixedImage stages).ndim = gs.dimensionality)
    (hm : ∀ s ∈ stages, s.metrics.length = 1) :
    c1Prop stages its gs := by
  have hpro : process stages its gs
      = (expectedCalls (firstFixedImage stages) (firstMovingImage stages)
          stages 0 (initialTransformFor its),
         Except.ok (finalForward 0 (initialTransformFor its) stages)) :=
    runStages_eq_expected (firstFixedImage stages) (firstMovingImage stages)
      gs.dimensionality stages 0 (initialTransformFor its) h1 h2 hm
  have hpro1 : (process stages its gs).1
      = expectedCalls (firstFixedImage stages) (firstMovingImage stages)
        stages 0 (initialTransformFor its) := by
    rw [hpro]
  have hpro2 : (process stages its gs).2
      = Except.ok (finalForward 0 (initialTransformFor its) stages) := by
    rw [hpro]
  refine ⟨?_, ?_, ?_, ?_, ?_⟩
  · rw [hpro1]
    exact length_expectedCalls ..
  · intro i c hc
    rw [hpro1, getElem?_expectedCalls] at hc
    cases horig : stages[i]? with
    | none => rw [horig] at hc; exact absurd hc (by simp)
    | some s =>
      rw [horig] at hc
      simp only [Option.map_some'] at hc
      injection hc with h
      rw [← h, mkEngineCall_stageIndex]
      omega
  · intro c hc
    rw [hpro1, getElem?_expectedCalls] at hc
    cases horig : stages[0]? with
    | none => rw [horig] at hc; exact absurd hc (by simp)
    | some s =>
      rw [horig] at hc
      simp only [Option.map_some', if_pos rfl] at hc
      injection hc with h
      rw [← h, mkEngineCall_initialTransform]
      simp
  · intro i c hc
    rw [hpro1, getElem?_expectedCalls] at hc
    cases horig : stages[i + 1]? with
    | none => rw [horig] at hc; exact absurd hc (by simp)
    | some s =>
      rw [horig] at hc
      simp only [Option.map_some', if_neg (Nat.succ_ne_zero i)] at hc
      injection hc with h
      rw [← h, mkEngineCall_initialTransform]
      constructor
      · congr 1
        omega
      · simp
  · rw [hpro2]
    exact ⟨finalForward 0 (initialTransformFor its) stages, rfl⟩

/-- Witness for `c1_engine_invocations_and_chaining` on the two-stage
scenario pipeline: Rigid (gradient step 0.2, Mattes, 1 level) then SyN
(gradient step 0.1, CC, 3 levels). -/
theorem c1_witness :
    (firstFixedImage [rigidStage3, synStage3]).ndim
        = (firstMovingImage [rigidStage3, synStage3]).ndim ∧
      (firstFixedImage [rigidStage3, synStage3]).ndim
        = generalSettings3.dimensionality ∧
      (∀ s ∈ [rigidStage3, synStage3], s.metrics.length = 1) ∧
      c1Prop [rigidStage3, synStage3] ⟨none, none⟩ generalSettings3 :=
  ⟨by decide, by decide, by decide,
    c1_engine_invocations_and_chaining [rigidStage3, synStage3]
      ⟨none, none⟩ generalSettings3 (by decide) (by decide) (by decide)⟩

/-- Two-dimensional mask used by the C6 counterexample. -/
def maskVolume2 : RImage := ⟨2, "maskVolume2d"⟩

/-- Concrete Rigid stage with 3-dimensional images and a 2-dimensional fixed
mask. -/
def maskedStage3 : RStage :=
  { transformParameters := { transform := "Rigid", settings := "0.2" },
    metrics := [{ type := "Mattes", fixed := fixedVolume3,
                  moving := movingVolume3, settings := "1,32" }],
    levels := { steps := [{ convergence := 100, shrinkFactors := 4, smoothingSigmas := 2 }],
                smoothingSigmasUnit := "vox", convergenceThreshold := 0,
                convergenceWindowSize := 10 },
    masks := ⟨some maskVolume2, none⟩ }

/-- Claim C6 counterexample: a pipeline whose images are 3-dimensional and
whose supplied fixed mask is 2-dimensional is a mismatched input in the
claim's sense, yet the run makes one engine invocation and completes — the
driver never checks mask dimensionality, so no `DimensionMismatch` stops it
and the engine invocation count is not zero. -/
theorem c6_counterexample :
    maskedStage3.masks.fixed = some maskVolume2 ∧
      maskVolume2.ndim ≠ (firstFixedImage [maskedStage3]).ndim ∧
      maskVolume2.ndim ≠ generalSettings3.dimensionality ∧
      (process [maskedStage3] ⟨none, none⟩ generalSettings3).1.length = 1 ∧
      (process [maskedStage3] ⟨none, none⟩ generalSettings3).2
        = Except.ok (ITKTransform.engineForward 0) := by
  refine ⟨rfl, by decide, by decide, rfl, rfl⟩

/-- Claim C6 as amended: the driver asserts, at the start of every stage and
hence before the first engine invocation, that the fixed and moving images
(read from the first stage's first metric) have equal `ndim` equal to the
declared dimensionality; when either check fails on a non-empty pipeline,
the run stops with an assertion failure and zero engine invocations. Mask
dimensionality is never validated (see the counterexample). -/
theorem c6_image_dim_check_stops_before_engine (stages : List RStage)
    (its : InitialTransformSettings) (gs : GeneralSettings)
    (hne : stages ≠ [])
    (hmis : (firstFixedImage stages).ndim ≠ (firstMovingImage stages).ndim ∨
      (firstFixedImage stages).ndim ≠ gs.dimensionality) :
    (process stages its gs).1 = [] ∧
      ∃ msg, (process stages its gs).2
        = Except.error (ProcessError.assertionError msg) := by
  cases hst : stages with
  | nil => exact absurd hst hne
  | cons stage rest =>
    subst hst
    by_cases hfm : (firstFixedImage (stage :: rest)).ndim
        = (firstMovingImage (stage :: rest)).ndim
    · have hd : ¬ (firstFixedImage (stage :: rest)).ndim = gs.dimensionality := by
        rcases hmis with h | h
        · exact absurd hfm h
        · exact h
      have hrun : process (stage :: rest) its gs
          = ([], Except.error
              (ProcessError.assertionError "fixedImage ndim equals dimensionality")) := by
        show runStages (firstFixedImage (stage :: rest))
            (firstMovingImage (stage :: rest)) gs.dimensionality
            (stage :: rest) 0 (initialTransformFor its) = _
        simp only [runStages]
        rw [if_pos hfm, if_neg hd]
      rw [hrun]
      exact ⟨rfl, "fixedImage ndim equals dimensionality", rfl⟩
    · have hrun : process (stage :: rest) its gs
          = ([], Except.error
              (ProcessError.assertionError "fixedImage ndim equals movingImage ndim")) := by
        show runStages (firstFixedImage (stage :: rest))
            (firstMovingImage (stage :: rest)) gs.dimensionality
            (stage :: rest) 0 (initialTransformFor its) = _
        simp only [runStages]
        rw [if_neg hfm]
      rw [hrun]
      exact ⟨rfl, "fixedImage ndim equals movingImage ndim", rfl⟩

/-- Concrete stage whose images are 2-dimensional, used to witness the C6
amended theorem against a declared dimensionality of 3. -/
def flatStage2 : RStage :=
  { transformParameters := { transform := "Rigid", settings := "0.2" },
    metrics := [{ type := "Mattes", fixed := ⟨2, "fixedSlice"⟩,
                  moving := ⟨2, "movingSlice"⟩, settings := "1,32" }],
    levels := { steps := [{ convergence := 100, shrinkFactors := 4, smoothingSigmas := 2 }],
                smoothingSigmasUnit := "vox", convergenceThreshold := 0,
                convergenceWindowSize := 10 },
    masks := ⟨none, none⟩ }

/-- Witness for `c6_image_dim_check_stops_before_engine` at a concrete
pipeline of 2-dimensional images with declared dimensionality 3. -/
theorem c6_witness :
    [flatStage2] ≠ ([] : List RStage) ∧
      ((firstFixedImage [flatStage2]).ndim
          ≠ (firstMovingImage [flatStage2]).ndim ∨
        (firstFixedImage [flatStage2]).ndim ≠ generalSettings3.dimensionality) ∧
      ((process [flatStage2] ⟨none, none⟩ generalSettings3).1 = [] ∧
        ∃ msg, (process [flatStage2] ⟨none, none⟩ generalSettings3).2
          = Except.error (ProcessError.assertionError msg)) :=
  ⟨by decide, Or.inr (by decide),
    c6_image_dim_check_stops_before_engine [flatStage2] ⟨none, none⟩
      generalSettings3 (by decide) (Or.inr (by decide))⟩

/-- Statement of claim C10: every engine invocation of a run receives the
stage's transform type passed through `engineTransformType`, which rewrites
"SyN" (the stage type whose family would otherwise bundle an implicit
rigid/affine pre-alignment) to "SyNOnly" and forwards every other transform
type verbatim. -/
def c10Prop (stages : List RStage) (its : InitialTransformSettings)
    (gs : GeneralSettings) : Prop :=
  let out := process stages its gs
  (∀ (i : Nat) (c : EngineCall) (s : RStage), out.1[i]? = some c →
    stages[i]? = some s →
    c.typeOfTransform = engineTransformType s.transformParameters.transform) ∧
  engineTransformType "SyN" = "SyNOnly" ∧
  (∀ t : String, t ≠ "SyN" → engineTransformType t = t)

/-- Claim C10: for stages of the diffeomorphic SyN family without a
rigid/affine head — selected as "SyN" in this module's stage table — the
driver tells the engine to use "SyNOnly", the variant that skips the
implicit affine pre-alignment bundled with the general "SyN" engine
transform; every other stage transform type reaches the engine unchanged. -/
theorem c10_syn_only_rewrite (stages : List RStage)
    (its : InitialTransformSettings) (gs : GeneralSettings)
    (h1 : (firstFixedImage stages).ndim = (firstMovingImage stages).ndim)
    (h2 : (firstFixedImage stages).ndim = gs.dimensionality)
    (hm : ∀ s ∈ stages, s.metrics.length = 1) :
    c10Prop stages its gs := by
  have hpro : process stages its gs
      = (expectedCalls (firstFixedImage stages) (firstMovingImage stages)
          stages 0 (initialTransformFor its),
         Except.ok (finalForward 0 (initialTransformFor its) stages)) :=
    runStages_eq_expected (firstFixedImage stages) (firstMovingImage stages)
      gs.dimensionality stages 0 (initialTransformFor its) h1 h2 hm
  have hpro1 : (process stages its gs).1
      = expectedCalls (firstFixedImage stages) (firstMovingImage stages)
        stages 0 (initialTransformFor its) := by
    rw [hpro]
  refine ⟨?_, rfl, ?_⟩
  · intro i c s hc hs
    rw [hpro1, getElem?_expectedCalls, hs] at hc
    simp only [Option.map_some'] at hc
    injection hc with h
    rw [← h, mkEngineCall_typeOfTransform]
  · intro t ht
    rw [engineTransformType, if_neg ht]

/-- Witness for `c10_syn_only_rewrite` at a concrete single-SyN-stage
pipeline. -/
theorem c10_witness :
    (firstFixedImage [synStage3]).ndim = (firstMovingImage [synStage3]).ndim ∧
      (firstFixedImage [synStage3]).ndim = generalSettings3.dimensionality ∧
      (∀ s ∈ [synStage3], s.metrics.length = 1) ∧
      c10Prop [synStage3] ⟨none, none⟩ generalSettings3 :=
  ⟨by decide, by decide, by decide,
    c10_syn_only_rewrite [synStage3] ⟨none, none⟩ generalSettings3
      (by decide) (by decide) (by decide)⟩

/-- Runtime category of an engine-side (ITK) transform, as discriminated by
the `isinstance` chain of `transformNodeFromItkTransform` in source order:
`itk.MatrixOffsetTransformBase`, `itk.BSplineTransform`,
`itk.DisplacementFieldTransform`, `itk.CompositeTransform`, and a catch-all
for every other runtime type (carrying its type name). The four tested ITK
classes are mutually exclusive for a concrete transform object, so the
categories are modelled as a disjoint tagged variant. -/
inductive ItkTransformKind where
  | matrixOffsetTransformBase
  | bsplineTransform
  | displacementFieldTransform
  | compositeTransform
  | other (typeName : String)
deriving DecidableEq

/-- Host-side (MRML) transform node classes the codec can create:
`vtkMRMLLinearTransformNode`, `vtkMRMLBSplineTransformNode`,
`vtkMRMLGridTransformNode` and the generic `vtkMRMLTransformNode`. -/
inductive MRMLTransformNodeType where
  | linearTransformNode
  | bsplineTransformNode
  | gridTransformNode
  | transformNode
deriving DecidableEq

/-- Failures of a codec conversion: the unsupported-kind `ValueError` raised
by the node-type dispatch, or a failure raised by one of the external ITK
calls (`itk.transformread` / `itk.transformwrite`). -/
inductive CodecError where
  | unsupportedTransformKind (typeName : String)
  | readFailure
  | writeFailure
deriving DecidableEq

/-- Node-type dispatch of `transformNodeFromItkTransform` when no target
node is supplied: `MatrixOffsetTransformBase` kinds get a linear transform
node, `BSplineTransform` kinds a B-spline transform node,
`DisplacementFieldTransform` kinds a grid transform node,
`CompositeTransform` kinds the generic transform node; any other runtime
kind raises `ValueError` ("Unsupported transform type"). -/
def nodeTypeForItkTransform :
    ItkTransformKind → Except CodecError MRMLTransformNodeType
  | ItkTransformKind.matrixOffsetTransformBase =>
    Except.ok MRMLTransformNodeType.linearTransformNode
  | ItkTransformKind.bsplineTransform =>
    Except.ok MRMLTransformNodeType.bsplineTransformNode
  | ItkTransformKind.displacementFieldTransform =>
    Except.ok MRMLTransformNodeType.gridTransformNode
  | ItkTransformKind.compositeTransform =>
    Except.ok MRMLTransformNodeType.transformNode
  | ItkTransformKind.other typeName =>
    Except.error (CodecError.unsupportedTransformKind typeName)

/-- Temporary interchange file path used by both codec directions:
`os.path.join(slicer.app.temporaryPath, "tempTransform_{0}.h5".format(time.time()))`,
with `now` the formatted `time.time()` value. -/
def tempTransformFileName (temporaryPath now : String) : String :=
  temporaryPath ++ "/tempTransform_" ++ now ++ ".h5"

/-- A host transform node handed to the codec, identified by its node ID. -/
structure HostTransformNode where
  id : String
deriving DecidableEq

/-- Value returned by `itkTransformFromTransformNode` on success: the result
of `itk.transformread` is a list of transforms, unwrapped when it holds
exactly one element. -/
inductive ItkTransformValue where
  | single (kind : ItkTransformKind)
  | multiple (kinds : List ItkTransformKind)
deriving DecidableEq

/-- Codec direction `itkTransformFromTransformNode`, modelled over the list
of existing temporary files: for a missing node it returns `None` without
touching any file; otherwise `storageNode.WriteData` creates the temporary
interchange file, the external `itk.transformread` either yields the
transform list (`readResult = ok`) or raises (`readResult = error`, the
exception propagating out of the function so that the `os.remove` on the
following line never runs), and on success the file is removed again. -/
def itkTransformFromTransformNode (transformNode : Option HostTransformNode)
    (temporaryPath now : String)
    (readResult : Except CodecError (List ItkTransformKind))
    (files : List String) :
    List String × Except CodecError (Option ItkTransformValue) :=
  match transformNode with
  | none => (files, Except.ok none)
  | some _ =>
    let tempFilePath := tempTransformFileName temporaryPath now
    let filesWithTemp := tempFilePath :: files
    match readResult with
    | Except.error e => (filesWithTemp, Except.error e)
    | Except.ok kinds =>
      (filesWithTemp.erase tempFilePath,
       Except.ok (some
        (if kinds.length = 1 then
          ItkTransformValue.single
            (kinds.headD ItkTransformKind.compositeTransform)
        else ItkTransformValue.multiple kinds)))

/-- Codec direction `transformNodeFromItkTransform`, modelled over the list
of existing temporary files: the target node type is the supplied node or
the kind-dispatched new node (whose failure aborts before any file is
created); the external `itk.transformwrite` either creates the temporary
interchange file (`writeResult = ok`) or raises before creating it;
`storageNode.ReadData` returns a status the source ignores and raises
nothing, so on the write-success path the `os.remove` always runs. -/
def transformNodeFromItkTransform (itkKind : ItkTransformKind)
    (existingNode : Option MRMLTransformNodeType)
    (temporaryPath now : String)
    (writeResult : Except CodecError Unit)
    (files : List String) :
    List String × Except CodecError MRMLTransformNodeType :=
  let nodeType : Except CodecError MRMLTransformNodeType :=
    match existingNode with
    | some t => Except.ok t
    | none => nodeTypeForItkTransform itkKind
  match nodeType with
  | Except.error e => (files, Except.error e)
  | Except.ok t =>
    let tempFilePath := tempTransformFileName temporaryPath now
    match writeResult with
    | Except.error e => (files, Except.error e)
    | Except.ok _ =>
      ((tempFilePath :: files).erase tempFilePath, Except.ok t)

theorem tempTransformFileName_inj (temporaryPath now1 now2 : String)
    (h : tempTransformFileName temporaryPath now1
      = tempTransformFileName temporaryPath now2) : now1 = now2 := by
  rw [tempTransformFileName, tempTransformFileName] at h
  have hd := congrArg String.data h
  simp only [String.data_append] at hd
  have h1 := List.append_cancel_right hd
  have h2 := List.append_cancel_left h1
  cases now1
  cases now2
  simp_all

/-- Claim C8 counterexample: a B-spline engine transform — a free-form
deformation kind, and not a linear kind — is mapped by the codec to a
dedicated B-spline transform node, which is neither the displacement-field
(grid) node the claim assigns to free-form deformation kinds nor the
generic composite transform container the claim assigns to everything
else. -/
theorem c8_counterexample :
    nodeTypeForItkTransform ItkTransformKind.bsplineTransform
        = Except.ok MRMLTransformNodeType.bsplineTransformNode ∧
      MRMLTransformNodeType.bsplineTransformNode
        ≠ MRMLTransformNodeType.gridTransformNode ∧
      MRMLTransformNodeType.bsplineTransformNode
        ≠ MRMLTransformNodeType.transformNode ∧
      MRMLTransformNodeType.bsplineTransformNode
        ≠ MRMLTransformNodeType.linearTransformNode := by
  refine ⟨rfl, by decide, by decide, by decide⟩

/-- Claim C8 as amended: when no host target object exists, the codec
selects the node type from the engine transform's runtime kind in four
recognized categories — linear kinds to a linear transform node, B-spline
kinds to a B-spline transform node, displacement-field kinds to a grid
(displacement-field) transform node, composite kinds to the generic
transform container — and the conversion fails with the
unsupported-transform-kind error exactly when the kind is none of these. -/
theorem c8_node_type_selection :
    nodeTypeForItkTransform ItkTransformKind.matrixOffsetTransformBase
        = Except.ok MRMLTransformNodeType.linearTransformNode ∧
      nodeTypeForItkTransform ItkTransformKind.bsplineTransform
        = Except.ok MRMLTransformNodeType.bsplineTransformNode ∧
      nodeTypeForItkTransform ItkTransformKind.displacementFieldTransform
        = Except.ok MRMLTransformNodeType.gridTransformNode ∧
      nodeTypeForItkTransform ItkTransformKind.compositeTransform
        = Except.ok MRMLTransformNodeType.transformNode ∧
      (∀ k : ItkTransformKind,
        (∃ typeName, nodeTypeForItkTransform k
          = Except.error (CodecError.unsupportedTransformKind typeName))
          ↔ ∃ typeName, k = ItkTransformKind.other typeName) := by
  refine ⟨rfl, rfl, rfl, rfl, ?_⟩
  intro k
  cases k <;> simp [nodeTypeForItkTransform]

/-- Witness for `c8_node_type_selection`: an unrecognized runtime kind fails
with the unsupported-transform-kind error. -/
theorem c8_witness :
    ∃ typeName,
      nodeTypeForItkTransform (ItkTransformKind.other "QuaternionRigidTransform")
        = Except.error (CodecError.unsupportedTransformKind typeName) :=
  (c8_node_type_selection.2.2.2.2
    (ItkTransformKind.other "QuaternionRigidTransform")).mpr
    ⟨"QuaternionRigidTransform", rfl⟩

/-- Claim C9 counterexample: when the deserialization step of a conversion
fails (the external `itk.transformread` raises), the temporary interchange
file is left behind — the `os.remove` call is on the line after the failing
call and not in any cleanup handler — refuting deletion on every exit
path. -/
theorem c9_counterexample :
    (itkTransformFromTransformNode (some ⟨"node1"⟩) "/tmp" "100.5"
        (Except.error CodecError.readFailure) []).2
        = Except.error CodecError.readFailure ∧
      tempTransformFileName "/tmp" "100.5"
        ∈ (itkTransformFromTransformNode (some ⟨"node1"⟩) "/tmp" "100.5"
            (Except.error CodecError.readFailure) []).1 :=
  ⟨rfl, List.mem_cons_self _ _⟩

/-- Claim C9 as amended: the temporary interchange file name embeds the
formatted `time.time()` value, so conversions with distinct timestamps use
distinct names (equal formatted timestamps would collide); on the successful
path of either codec direction the temporary file is deleted, restoring the
file set exactly; but when the node-to-engine conversion's deserialization
step raises, the temporary file is not deleted (see the counterexample). In
the engine-to-node direction a write failure creates no file and the read
status is ignored rather than raised, so that direction always restores the
file set. -/
theorem c9_temp_file_lifecycle :
    (∀ temporaryPath now1 now2 : String, now1 ≠ now2 →
      tempTransformFileName temporaryPath now1
        ≠ tempTransformFileName temporaryPath now2) ∧
      (∀ (node : HostTransformNode) (temporaryPath now : String)
          (kinds : List ItkTransformKind) (files : List String),
        (itkTransformFromTransformNode (some node) temporaryPath now
          (Except.ok kinds) files).1 = files) ∧
      (∀ (node : HostTransformNode) (temporaryPath now : String)
          (e : CodecError) (files : List String),
        (itkTransformFromTransformNode (some node) temporaryPath now
          (Except.error e) files).1
          = tempTransformFileName temporaryPath now :: files) ∧
      (∀ (itkKind : ItkTransformKind)
          (existingNode : Option MRMLTransformNodeType)
          (temporaryPath now : String) (writeResult : Except CodecError Unit)
          (files : List String),
        (transformNodeFromItkTransform itkKind existingNode temporaryPath now
          writeResult files).1 = files) := by
  refine ⟨?_, ?_, ?_, ?_⟩
  · intro temporaryPath now1 now2 hne heq
    exact hne (tempTransformFileName_inj temporaryPath now1 now2 heq)
  · intro node temporaryPath now kinds files
    show (tempTransformFileName temporaryPath now :: files).erase
        (tempTransformFileName temporaryPath now) = files
    exact List.erase_cons_head ..
  · intro node temporaryPath now e files
    rfl
  · intro itkKind existingNode temporaryPath now writeResult files
    cases existingNode with
    | some t =>
      cases writeResult with
      | error e => rfl
      | ok u =>
        show (tempTransformFileName temporaryPath now :: files).erase
            (tempTransformFileName temporaryPath now) = files
        exact List.erase_cons_head ..
    | none =>
      cases itkKind <;> cases writeResult <;>
        first
          | rfl
          | (show (tempTransformFileName temporaryPath now :: files).erase
                (tempTransformFileName temporaryPath now) = files
             exact List.erase_cons_head ..)

/-- Witness for `c9_temp_file_lifecycle` on two conversions with distinct
formatted timestamps. -/
theorem c9_witness :
    "100.1" ≠ "100.2" ∧
      tempTransformFileName "/tmp" "100.1"
        ≠ tempTransformFileName "/tmp" "100.2" :=
  ⟨by decide, c9_temp_file_lifecycle.1 "/tmp" "100.1" "100.2" (by decide)⟩

end SlicerANTs
